import Mathlib

/-!
Verification of the clinical-study visit-tracking workflow.

The embedding follows `core/models.py` and `core/views.py`:

* a `Visit` row (`models.py`, class `Visit`) carries a `completed` boolean
  (default `False`); its four optional one-to-one sub-records
  (`Vitals`, `DoctorQuestionnaire`, `PsychiatristQuestionnaire`,
  `LabRequest`, each a `OneToOneField` to `Visit`) are modelled as the
  list of step-record rows attached to the visit, with `hasattr(visit, r)`
  becoming presence of the variant in that list;
* the workflow view functions of `views.py` (`take_vitals`,
  `doctor_assessment`, `psychiatrist_assessment`, `create_lab_request`,
  `complete_visit`) become state transformers on `Visit`, with the
  database uniqueness of each `OneToOneField` modelled by
  `create_step_record` returning a `Conflict` error when a record for the
  same (visit, variant) pair already exists (Django raises
  `IntegrityError` there);
* the statistics of `active_visits` (`views.py` lines 199-202), the
  progress helper `calculate_visit_progress` (lines 17-28) and the JSON
  status endpoint `visit_status` (lines 594-605) are translated directly.
-/

/-- The four step-record variants, named after the `related_name` of the
corresponding `OneToOneField` in `core/models.py`
(`vitals`, `doctor_questionnaire`, `psychiatrist_questionnaire`,
`lab_request`). -/
inductive StepVariant where
  | vitals
  | doctor_questionnaire
  | psychiatrist_questionnaire
  | lab_request
deriving DecidableEq, Repr

/-- A `Visit` row together with its attached step records.  `steps` is the
list of step-record rows whose `visit` foreign key points at this visit
(Django exposes each as the reverse accessor tested by `hasattr`);
`completed` is the `completed = models.BooleanField(default=False)`
column of `core/models.py`. -/
structure Visit where
  steps : List StepVariant
  completed : Bool
deriving DecidableEq, Repr

/-- A freshly created visit: `Visit.objects.create` with the model
defaults gives `completed = False` and no related step records. -/
def new_visit : Visit := { steps := [], completed := false }

/-- Presence check for a step record: `hasattr(visit, related_name)` in
the views is true exactly when a row of that variant exists for the
visit. -/
def step_exists (visit : Visit) (s : StepVariant) : Bool :=
  visit.steps.contains s

/-- `calculate_visit_progress` of `views.py` lines 17-28: starts at 0 and
adds 1 for each of the four `hasattr` checks that succeeds. -/
def calculate_visit_progress (visit : Visit) : Nat :=
  let progress := 0
  let progress := if step_exists visit StepVariant.vitals then progress + 1 else progress
  let progress := if step_exists visit StepVariant.doctor_questionnaire then progress + 1 else progress
  let progress := if step_exists visit StepVariant.psychiatrist_questionnaire then progress + 1 else progress
  let progress := if step_exists visit StepVariant.lab_request then progress + 1 else progress
  progress

/-- The request methods the views distinguish: every view branches on
`request.method == 'POST'` and otherwise renders the page. -/
inductive HttpMethod where
  | GET
  | POST
deriving DecidableEq, Repr

/-- The five workflow steps a request can address, one per workflow URL of
`core/urls.py` (`vitals`, `doctor_assessment`, `psychiatrist_assessment`,
`lab_request`, `complete_visit`). -/
inductive Step where
  | vitals
  | doctor
  | psychiatrist
  | lab
  | complete
deriving DecidableEq, Repr

/-- Outcome of the gate a workflow view runs before rendering or saving:
either the request proceeds, or the view redirects to another step. -/
inductive Access where
  | Allow
  | DenyRedirect (target : Step)
deriving DecidableEq, Repr

/-- The access gate of the workflow views, assembled from the guard at the
top of each view in `views.py`:

* `take_vitals` (lines 303-334) has no guard;
* `doctor_assessment` (lines 342-344) redirects to `vitals` when
  `hasattr(visit, "vitals")` fails;
* `psychiatrist_assessment` (lines 380-382) redirects to
  `doctor_assessment` when `hasattr(visit, 'doctor_questionnaire')` fails;
* `create_lab_request` (lines 413-415) redirects to
  `psychiatrist_assessment` when
  `hasattr(visit, 'psychiatrist_questionnaire')` fails;
* `complete_visit` (lines 441-452) has no guard at all. -/
def evaluate_access (visit : Visit) (s : Step) : Access :=
  match s with
  | Step.vitals => Access.Allow
  | Step.doctor =>
      if !step_exists visit StepVariant.vitals then Access.DenyRedirect Step.vitals
      else Access.Allow
  | Step.psychiatrist =>
      if !step_exists visit StepVariant.doctor_questionnaire then Access.DenyRedirect Step.doctor
      else Access.Allow
  | Step.lab =>
      if !step_exists visit StepVariant.psychiatrist_questionnaire then Access.DenyRedirect Step.psychiatrist
      else Access.Allow
  | Step.complete => Access.Allow

/-- The step-record variant whose presence the view for a given step
checks before proceeding: the immediately preceding step's record.
`take_vitals` and `complete_visit` check nothing. -/
def guard_target (s : Step) : Option StepVariant :=
  match s with
  | Step.vitals => none
  | Step.doctor => some StepVariant.vitals
  | Step.psychiatrist => some StepVariant.doctor_questionnaire
  | Step.lab => some StepVariant.psychiatrist_questionnaire
  | Step.complete => none

/-- The workflow step whose form records a given variant (the redirect
target used when that variant is the one the guard found missing). -/
def step_of (p : StepVariant) : Step :=
  match p with
  | StepVariant.vitals => Step.vitals
  | StepVariant.doctor_questionnaire => Step.doctor
  | StepVariant.psychiatrist_questionnaire => Step.psychiatrist
  | StepVariant.lab_request => Step.lab

/-- The storage-layer error raised when a second step record is written
for the same (visit, variant) pair: each sub-record is a
`OneToOneField(Visit)`, so the database uniqueness constraint rejects the
second `objects.create` with an `IntegrityError`. -/
inductive CreateError where
  | Conflict
deriving DecidableEq, Repr

/-- `<Variant>.objects.create(visit=visit, ...)` at the storage layer: the
`OneToOneField` uniqueness constraint makes the insert fail with a
conflict when a record of that variant already exists for the visit, and
otherwise appends exactly one new row. -/
def create_step_record (visit : Visit) (s : StepVariant) : Except CreateError Visit :=
  if step_exists visit s then Except.error CreateError.Conflict
  else Except.ok { visit with steps := s :: visit.steps }

/-- `complete_visit` of `views.py` lines 441-452: on POST it sets
`visit.completed = True` and saves; on any other method it only renders
the confirmation template, leaving the visit unchanged.  No step record is
consulted or touched. -/
def complete_visit (method : HttpMethod) (visit : Visit) : Visit :=
  match method with
  | HttpMethod.POST => { visit with completed := true }
  | HttpMethod.GET => visit

/-- The `try: <Variant>.objects.create(...) except Exception: ...` shape
of the POST branch of each form view: on a storage conflict the view
reports an error message and the store keeps its previous contents (the
`IntegrityError`, caught or propagated, never writes a second row). -/
def attempt_create (visit : Visit) (s : StepVariant) : Visit :=
  match create_step_record visit s with
  | Except.ok v' => v'
  | Except.error _ => visit

/-- One workflow view applied end to end, from `views.py`: the view's
guard runs first (see `evaluate_access`); on POST the view then attempts
to create the step's record (`take_vitals` lines 308-331,
`doctor_assessment` lines 352-364, `psychiatrist_assessment` lines
384-401, `create_lab_request` lines 417-434); `complete_visit` sets the
flag.  Non-POST requests only render. -/
def apply_view (s : Step) (method : HttpMethod) (visit : Visit) : Visit :=
  match s, method with
  | Step.vitals, HttpMethod.POST => attempt_create visit StepVariant.vitals
  | Step.doctor, HttpMethod.POST =>
      if !step_exists visit StepVariant.vitals then visit
      else attempt_create visit StepVariant.doctor_questionnaire
  | Step.psychiatrist, HttpMethod.POST =>
      if !step_exists visit StepVariant.doctor_questionnaire then visit
      else attempt_create visit StepVariant.psychiatrist_questionnaire
  | Step.lab, HttpMethod.POST =>
      if !step_exists visit StepVariant.psychiatrist_questionnaire then visit
      else attempt_create visit StepVariant.lab_request
  | Step.complete, m => complete_visit m visit
  | _, HttpMethod.GET => visit

/-- The four waiting-room counters computed by `active_visits`
(`views.py` lines 194-222). -/
structure BucketCounts where
  waiting_vitals : Nat
  waiting_doctor : Nat
  waiting_psychiatry : Nat
  waiting_lab : Nat
deriving DecidableEq, Repr

/-- The statistics block of `active_visits` (`views.py` lines 196-202):
the queryset is first restricted to `completed=False`, then each counter
applies its own `isnull` filters —
`waiting_vitals`: `vitals__isnull=True`;
`waiting_doctor`: `vitals__isnull=False, doctor_questionnaire__isnull=True`;
`waiting_psychiatry`: `doctor_questionnaire__isnull=False, psychiatrist_questionnaire__isnull=True`;
`waiting_lab`: `psychiatrist_questionnaire__isnull=False, lab_request__isnull=True`. -/
def active_visit_stats (visits : List Visit) : BucketCounts :=
  let active := visits.filter (fun v => !v.completed)
  { waiting_vitals :=
      (active.filter (fun v => !step_exists v StepVariant.vitals)).length
    waiting_doctor :=
      (active.filter (fun v =>
        step_exists v StepVariant.vitals && !step_exists v StepVariant.doctor_questionnaire)).length
    waiting_psychiatry :=
      (active.filter (fun v =>
        step_exists v StepVariant.doctor_questionnaire &&
          !step_exists v StepVariant.psychiatrist_questionnaire)).length
    waiting_lab :=
      (active.filter (fun v =>
        step_exists v StepVariant.psychiatrist_questionnaire &&
          !step_exists v StepVariant.lab_request)).length }

/-- The JSON payload of the `visit_status` endpoint (`views.py` lines
594-605): exactly five boolean fields. -/
structure VisitStatus where
  vitals_completed : Bool
  doctor_completed : Bool
  psychiatrist_completed : Bool
  lab_requested : Bool
  completed : Bool
deriving DecidableEq, Repr

/-- `visit_status` of `views.py` lines 594-605: each of the first four
fields is the corresponding `hasattr` check, and `completed` is the
visit's flag, with no further transformation. -/
def visit_status (visit : Visit) : VisitStatus :=
  { vitals_completed := step_exists visit StepVariant.vitals
    doctor_completed := step_exists visit StepVariant.doctor_questionnaire
    psychiatrist_completed := step_exists visit StepVariant.psychiatrist_questionnaire
    lab_requested := step_exists visit StepVariant.lab_request
    completed := visit.completed }

/-- First unsatisfied step of the fixed order vitals, doctor,
psychiatrist, lab — the derived-state rule of the workflow (`none` when
all four records are present). -/
def first_missing (visit : Visit) : Option StepVariant :=
  if !step_exists visit StepVariant.vitals then some StepVariant.vitals
  else if !step_exists visit StepVariant.doctor_questionnaire then some StepVariant.doctor_questionnaire
  else if !step_exists visit StepVariant.psychiatrist_questionnaire then some StepVariant.psychiatrist_questionnaire
  else if !step_exists visit StepVariant.lab_request then some StepVariant.lab_request
  else none

/-- A visit whose present step records form a downward-closed set of the
workflow order (each record present only when its predecessor is) — the
shape the guarded workflow produces. -/
def steps_in_order (visit : Visit) : Bool :=
  (!step_exists visit StepVariant.doctor_questionnaire || step_exists visit StepVariant.vitals) &&
  (!step_exists visit StepVariant.psychiatrist_questionnaire ||
    step_exists visit StepVariant.doctor_questionnaire) &&
  (!step_exists visit StepVariant.lab_request ||
    step_exists visit StepVariant.psychiatrist_questionnaire)

/-!
Helper lemmas shared by the claim theorems.
-/

/-- Presence of a step record is membership of the variant in the visit's
record list. -/
theorem step_exists_iff (v : Visit) (s : StepVariant) :
    step_exists v s = true ↔ s ∈ v.steps := List.elem_iff

/-- The record-creation fallback of a form view never changes the
`completed` flag: only `complete_visit` writes it. -/
theorem attempt_create_completed (v : Visit) (s : StepVariant) :
    (attempt_create v s).completed = v.completed := by
  unfold attempt_create create_step_record
  cases h : step_exists v s <;> simp [h]

/-- For a visit whose step records are downward closed in the workflow
order, each `active_visits` bucket condition coincides with the
first-missing-step rule. -/
theorem first_missing_of_in_order (v : Visit) (h : steps_in_order v = true) :
    ((!step_exists v StepVariant.vitals) = (first_missing v == some StepVariant.vitals)) ∧
    ((step_exists v StepVariant.vitals && !step_exists v StepVariant.doctor_questionnaire) =
      (first_missing v == some StepVariant.doctor_questionnaire)) ∧
    ((step_exists v StepVariant.doctor_questionnaire &&
        !step_exists v StepVariant.psychiatrist_questionnaire) =
      (first_missing v == some StepVariant.psychiatrist_questionnaire)) ∧
    ((step_exists v StepVariant.psychiatrist_questionnaire &&
        !step_exists v StepVariant.lab_request) =
      (first_missing v == some StepVariant.lab_request)) := by
  unfold steps_in_order at h
  unfold first_missing
  cases h1 : step_exists v StepVariant.vitals <;>
  cases h2 : step_exists v StepVariant.doctor_questionnaire <;>
  cases h3 : step_exists v StepVariant.psychiatrist_questionnaire <;>
  cases h4 : step_exists v StepVariant.lab_request <;>
  simp_all

/-- The three-visit sample of the bucket-count scenario: zero steps,
vitals only, and vitals plus doctor. -/
def three_visit_sample : List Visit :=
  [{ steps := [], completed := false },
   { steps := [StepVariant.vitals], completed := false },
   { steps := [StepVariant.vitals, StepVariant.doctor_questionnaire], completed := false }]

/-!
Claim theorems.
-/

/-- C1, counterexample: the claim that the completion flag can only be set
when a `LabRequest` exists fails on the code.  The visit with no step
records has no lab record and is in state NEEDS-VITALS (in particular, not
past NEEDS-LAB), yet `complete_visit` runs no guard: the `complete`
request is allowed rather than redirected, and a POST sets the completion
flag while the lab record is still absent. -/
theorem c1_no_lab_guard_counterexample :
    step_exists { steps := [], completed := false } StepVariant.lab_request = false ∧
    evaluate_access { steps := [], completed := false } Step.complete = Access.Allow ∧
    (complete_visit HttpMethod.POST { steps := [], completed := false }).completed = true ∧
    step_exists (complete_visit HttpMethod.POST { steps := [], completed := false })
      StepVariant.lab_request = false := by decide

/-- C1, amended: `complete_visit` performs no lab-presence check at all —
a POST sets the completion flag true for every visit, whatever step
records exist, it never touches the step records, and requesting the
complete step is always allowed (never redirected to the lab step). -/
theorem c1_complete_sets_flag_unconditionally (v : Visit) :
    (complete_visit HttpMethod.POST v).completed = true ∧
    (complete_visit HttpMethod.POST v).steps = v.steps ∧
    evaluate_access v Step.complete = Access.Allow := ⟨rfl, rfl, rfl⟩

/-- C2, counterexample: on a visit with zero step records the claim
predicts DenyRedirect(vitals) for every non-vitals step, but the code
redirects `psychiatrist` to `doctor`, redirects `lab` to `psychiatrist`,
and allows `complete` outright. -/
theorem c2_zero_steps_counterexample :
    evaluate_access { steps := [], completed := false } Step.psychiatrist =
      Access.DenyRedirect Step.doctor ∧
    Access.DenyRedirect Step.doctor ≠ Access.DenyRedirect Step.vitals ∧
    evaluate_access { steps := [], completed := false } Step.lab =
      Access.DenyRedirect Step.psychiatrist ∧
    evaluate_access { steps := [], completed := false } Step.complete = Access.Allow := by decide

/-- C2, amended: `evaluate_access` checks only the immediately preceding
step.  It allows `vitals` and `complete` unconditionally; for `doctor`,
`psychiatrist` and `lab` it allows exactly when the immediately preceding
step's record exists, and otherwise denies with a redirect to that
immediately preceding step (not to the first unsatisfied step).  On a
zero-record visit this sends `doctor` to vitals, `psychiatrist` to
doctor, `lab` to psychiatrist, and allows `vitals` and `complete`. -/
theorem c2_guard_checks_immediate_predecessor (v : Visit) (s : Step) :
    ((evaluate_access v s = Access.Allow ↔
      guard_target s = none ∨ ∃ p, guard_target s = some p ∧ step_exists v p = true) ∧
    (∀ t, evaluate_access v s = Access.DenyRedirect t ↔
      ∃ p, guard_target s = some p ∧ step_exists v p = false ∧ step_of p = t)) ∧
    (evaluate_access new_visit Step.doctor = Access.DenyRedirect Step.vitals ∧
    evaluate_access new_visit Step.psychiatrist = Access.DenyRedirect Step.doctor ∧
    evaluate_access new_visit Step.lab = Access.DenyRedirect Step.psychiatrist ∧
    evaluate_access new_visit Step.vitals = Access.Allow ∧
    evaluate_access new_visit Step.complete = Access.Allow) := by
  constructor
  · cases s
    case vitals => simp [evaluate_access, guard_target]
    case complete => simp [evaluate_access, guard_target]
    case doctor =>
      cases h : step_exists v StepVariant.vitals <;>
        simp [evaluate_access, guard_target, step_of, h]
    case psychiatrist =>
      cases h : step_exists v StepVariant.doctor_questionnaire <;>
        simp [evaluate_access, guard_target, step_of, h]
    case lab =>
      cases h : step_exists v StepVariant.psychiatrist_questionnaire <;>
        simp [evaluate_access, guard_target, step_of, h]
  · exact (by decide)

/-- C3, counterexample: the bucket counters of `active_visits` do not
partition arbitrary incomplete visits by the first-missing-step rule.  An
incomplete visit holding a doctor questionnaire but no vitals record has
first missing step vitals, yet it is counted both in `waiting_vitals`
(`vitals__isnull=True`) and in `waiting_psychiatry`
(`doctor_questionnaire__isnull=False, psychiatrist_questionnaire__isnull=True`):
one visit, two buckets. -/
theorem c3_double_count_counterexample :
    (active_visit_stats
      [{ steps := [StepVariant.doctor_questionnaire], completed := false }]).waiting_vitals = 1 ∧
    (active_visit_stats
      [{ steps := [StepVariant.doctor_questionnaire], completed := false }]).waiting_psychiatry = 1 ∧
    first_missing { steps := [StepVariant.doctor_questionnaire], completed := false } =
      some StepVariant.vitals := by decide

/-- C3, amended: each bucket of `active_visit_stats` counts the incomplete
visits satisfying its own predecessor-presence filter; when every visit's
step records are downward closed in the workflow order (the shape the
guarded workflow produces), the four buckets coincide with the
partition of incomplete visits by first missing step, so no such visit is
double-counted.  The three-visit scenario (zero steps, vitals only,
vitals plus doctor) yields waiting counts 1, 1, 1, 0. -/
theorem c3_buckets_partition_in_order (visits : List Visit)
    (h : ∀ v ∈ visits, steps_in_order v = true) :
    ((active_visit_stats visits).waiting_vitals =
      (visits.filter (fun v =>
        !v.completed && (first_missing v == some StepVariant.vitals))).length) ∧
    ((active_visit_stats visits).waiting_doctor =
      (visits.filter (fun v =>
        !v.completed && (first_missing v == some StepVariant.doctor_questionnaire))).length) ∧
    ((active_visit_stats visits).waiting_psychiatry =
      (visits.filter (fun v =>
        !v.completed && (first_missing v == some StepVariant.psychiatrist_questionnaire))).length) ∧
    ((active_visit_stats visits).waiting_lab =
      (visits.filter (fun v =>
        !v.completed && (first_missing v == some StepVariant.lab_request))).length) ∧
    active_visit_stats three_visit_sample =
      { waiting_vitals := 1, waiting_doctor := 1, waiting_psychiatry := 1, waiting_lab := 0 } := by
  refine ⟨?_, ?_, ?_, ?_, by decide⟩ <;>
  · unfold active_visit_stats
    simp only [List.filter_filter]
    apply congrArg List.length
    apply List.filter_congr
    intro v hv
    have hp := first_missing_of_in_order v (h v hv)
    cases hc : v.completed <;> simp [hc, hp.1, hp.2.1, hp.2.2.1, hp.2.2.2]

/-- C3, witness: the partition theorem applied to the three-visit sample,
whose step records are all downward closed. -/
theorem c3_buckets_partition_in_order_witness :
    (active_visit_stats three_visit_sample).waiting_vitals =
      (three_visit_sample.filter (fun v =>
        !v.completed && (first_missing v == some StepVariant.vitals))).length :=
  (c3_buckets_partition_in_order three_visit_sample (by decide)).1

/-- C4: `calculate_visit_progress` equals the number of step-record
variants present for the visit, is at most 4, and does not depend on the
completion flag. -/
theorem c4_progress_count (v : Visit) :
    calculate_visit_progress v =
      ([StepVariant.vitals, StepVariant.doctor_questionnaire,
        StepVariant.psychiatrist_questionnaire, StepVariant.lab_request].filter
        (fun s => step_exists v s)).length ∧
    calculate_visit_progress v ≤ 4 ∧
    ∀ b, calculate_visit_progress { v with completed := b } = calculate_visit_progress v := by
  refine ⟨?_, ?_, fun b => rfl⟩ <;>
  · cases h1 : step_exists v StepVariant.vitals <;>
    cases h2 : step_exists v StepVariant.doctor_questionnaire <;>
    cases h3 : step_exists v StepVariant.psychiatrist_questionnaire <;>
    cases h4 : step_exists v StepVariant.lab_request <;>
    simp [calculate_visit_progress, h1, h2, h3, h4]

/-- C5: marking a visit complete is idempotent — a second POST to
`complete_visit` returns exactly the state the first one produced, the
flag is true after the first call and stays true, and the operation is a
total function (there is no error case). -/
theorem c5_mark_complete_idempotent (v : Visit) :
    complete_visit HttpMethod.POST (complete_visit HttpMethod.POST v) =
      complete_visit HttpMethod.POST v ∧
    (complete_visit HttpMethod.POST v).completed = true ∧
    (complete_visit HttpMethod.POST (complete_visit HttpMethod.POST v)).completed = true :=
  ⟨rfl, rfl, rfl⟩

/-- C6: when the store satisfies the one-record-per-(visit, variant)
invariant (no duplicate variants) and a record creation succeeds, an
immediately repeated creation for the same (visit, variant) pair fails
with the Conflict error, the store then holds exactly one record of that
variant for the visit, and the uniqueness invariant still holds. -/
theorem c6_duplicate_step_conflict (v : Visit) (s : StepVariant) (v' : Visit)
    (hok : create_step_record v s = Except.ok v') (hnd : v.steps.Nodup) :
    create_step_record v' s = Except.error CreateError.Conflict ∧
    v'.steps.count s = 1 ∧ v'.steps.Nodup := by
  unfold create_step_record at hok
  cases hmem : step_exists v s <;> rw [hmem] at hok
  · simp at hok
    have hnot : s ∉ v.steps := by
      intro hin
      have := (step_exists_iff v s).mpr hin
      rw [hmem] at this
      exact Bool.false_ne_true this
    subst hok
    refine ⟨?_, ?_, ?_⟩
    · unfold create_step_record
      have hmem' : step_exists { v with steps := s :: v.steps } s = true :=
        (step_exists_iff _ _).mpr (List.mem_cons_self s v.steps)
      rw [hmem']
      simp
    · show (s :: v.steps).count s = 1
      rw [List.count_cons_self, List.count_eq_zero.mpr hnot]
    · exact List.nodup_cons.mpr ⟨hnot, hnd⟩
  · simp at hok

/-- C6, witness: creating the vitals record on a fresh visit succeeds;
the theorem then yields the conflict on the repeated creation and the
single stored record. -/
theorem c6_duplicate_step_conflict_witness :
    create_step_record { steps := [StepVariant.vitals], completed := false } StepVariant.vitals =
      Except.error CreateError.Conflict ∧
    ({ steps := [StepVariant.vitals], completed := false } : Visit).steps.count
      StepVariant.vitals = 1 ∧
    ({ steps := [StepVariant.vitals], completed := false } : Visit).steps.Nodup :=
  c6_duplicate_step_conflict new_visit StepVariant.vitals
    { steps := [StepVariant.vitals], completed := false } rfl List.nodup_nil

/-- C7: the status endpoint returns the value with exactly the five
boolean fields of `VisitStatus`; each of the four step fields is true
precisely when the corresponding step record is present for the visit,
and `completed` is the visit's completion flag, unchanged. -/
theorem c7_visit_status_fields (v : Visit) :
    ((visit_status v).vitals_completed = true ↔ StepVariant.vitals ∈ v.steps) ∧
    ((visit_status v).doctor_completed = true ↔ StepVariant.doctor_questionnaire ∈ v.steps) ∧
    ((visit_status v).psychiatrist_completed = true ↔
      StepVariant.psychiatrist_questionnaire ∈ v.steps) ∧
    ((visit_status v).lab_requested = true ↔ StepVariant.lab_request ∈ v.steps) ∧
    (visit_status v).completed = v.completed :=
  ⟨step_exists_iff v _, step_exists_iff v _, step_exists_iff v _, step_exists_iff v _, rfl⟩

/-- C8: the completion flag is monotone.  Applying any workflow view with
any method changes the flag exactly by or-ing in "the request is a POST to
the complete step": the flag is never reset from true to false, the only
write sets it true, and a freshly created visit starts with the flag
false. -/
theorem c8_completed_monotone :
    (∀ (s : Step) (m : HttpMethod) (v : Visit),
      (apply_view s m v).completed =
        (v.completed || (s == Step.complete && m == HttpMethod.POST))) ∧
    new_visit.completed = false := by
  refine ⟨?_, rfl⟩
  intro s m v
  cases s <;> cases m <;>
    simp [apply_view, complete_visit, attempt_create_completed] <;>
    split <;> simp [attempt_create_completed]

/-- C9: the progress value of `calculate_visit_progress` equals the
number of true values among the four step-presence booleans reported by
the status endpoint for the same visit state. -/
theorem c9_progress_matches_status (v : Visit) :
    calculate_visit_progress v =
      [(visit_status v).vitals_completed, (visit_status v).doctor_completed,
       (visit_status v).psychiatrist_completed, (visit_status v).lab_requested].count true := by
  cases h1 : step_exists v StepVariant.vitals <;>
  cases h2 : step_exists v StepVariant.doctor_questionnaire <;>
  cases h3 : step_exists v StepVariant.psychiatrist_questionnaire <;>
  cases h4 : step_exists v StepVariant.lab_request <;>
  simp [calculate_visit_progress, visit_status, h1, h2, h3, h4, List.count_cons]

/-- C10: a non-POST request to the complete-visit view changes nothing —
the view only renders, returning the visit with the same flag and the
same step records; and even on POST the view never touches the step
records. -/
theorem c10_get_complete_noop (v : Visit) :
    complete_visit HttpMethod.GET v = v ∧
    apply_view Step.complete HttpMethod.GET v = v ∧
    ∀ m, (complete_visit m v).steps = v.steps := by
  refine ⟨rfl, rfl, ?_⟩
  intro m
  cases m <;> rfl
